import Mathlib

/-!
Verification of the simple weather MCP server
(`simple_mcp_server.py`, with the forecast logic shared by
`weather_mcp_server.py`).

The Python code is shallowly embedded: dictionaries whose key sets are
fixed by the code become structures, the JSON values exchanged by the
JSON-RPC layer become an inductive `Json` type, and the only mutable
state (the seed table of three city records, plus the dictionaries the
handlers allocate) is modelled as an explicit heap of weather records.
-/

namespace WeatherServer

/-! ## String helpers

Python string operations used by the server, modelled over `List Char`.
Only ASCII-relevant behaviour is exercised by the server's data.
-/

/-- Occurrence of `needle` as a contiguous substring of `hay`
(Python's `needle in hay`). -/
def subList (needle : List Char) : List Char → Bool
  | [] => needle.isEmpty
  | c :: t => needle.isPrefixOf (c :: t) || subList needle t

/-- String version of `subList`: Python's `a in b`. -/
def occursIn (needle hay : String) : Bool :=
  subList needle.data hay.data

/-- Python's `s.startswith(p)`. -/
def startsWithL (p s : String) : Bool :=
  p.data.isPrefixOf s.data

/-- If `ps` is a prefix of `l`, drop it and return the remainder. -/
def dropIfPre : List Char → List Char → Option (List Char)
  | [], l => some l
  | _ :: _, [] => none
  | p :: ps, c :: cs => if p = c then dropIfPre ps cs else none

/-- Fuel-indexed worker for deleting every occurrence of the pattern
`p :: ps`, scanning left to right and skipping past each match
(Python's non-overlapping `str.replace(pat, "")`).  The fuel is always
instantiated with the length of the list, which suffices because every
step consumes at least one character. -/
def delAllFuel (p : Char) (ps : List Char) : Nat → List Char → List Char
  | 0, l => l
  | _ + 1, [] => []
  | f + 1, c :: cs =>
    if p = c then
      match dropIfPre ps cs with
      | some rest => delAllFuel p ps f rest
      | none => c :: delAllFuel p ps f cs
    else c :: delAllFuel p ps f cs

/-- Python's `s.replace(pat, "")`: delete every (non-overlapping,
leftmost-first) occurrence of `pat` in `s`.  For the empty pattern
Python would return `s` unchanged up to interspersed empty strings;
the server only ever uses the non-empty pattern `"weather://"`. -/
def removeAllOcc (s pat : String) : String :=
  match pat.data with
  | [] => s
  | p :: ps => String.mk (delAllFuel p ps s.data.length s.data)

/-- Python's `location.lower().replace(" ", "_").replace(",", "")`. -/
def normalizeLocation (s : String) : String :=
  String.mk
    (((s.data.map Char.toLower).map fun c => if c = ' ' then '_' else c).filter
      fun c => c != ',')

/-! ## Weather records and the seed table -/

/-- One weather dictionary.  The key set is fixed by the code; the
`date` field is the extra key the forecast loop inserts (absent,
i.e. `none`, everywhere else). -/
structure WeatherRecord where
  location : String
  temperature : Int
  humidity : Int
  conditions : String
  wind_speed : Int
  last_updated : String
  date : Option String := none
deriving DecidableEq, Inhabited, Repr

/-- Seed record for `"new_york"`. -/
def newYorkRec : WeatherRecord :=
  { location := "New York, NY", temperature := 72, humidity := 65,
    conditions := "Partly cloudy", wind_speed := 8,
    last_updated := "2024-01-15T14:30:00Z" }

/-- Seed record for `"london"`. -/
def londonRec : WeatherRecord :=
  { location := "London, UK", temperature := 18, humidity := 78,
    conditions := "Overcast", wind_speed := 12,
    last_updated := "2024-01-15T14:30:00Z" }

/-- Seed record for `"tokyo"`. -/
def tokyoRec : WeatherRecord :=
  { location := "Tokyo, Japan", temperature := 25, humidity := 60,
    conditions := "Clear", wind_speed := 5,
    last_updated := "2024-01-15T14:30:00Z" }

/-- `self.weather_data`, in insertion (= iteration) order. -/
def initTable : List (String × WeatherRecord) :=
  [("new_york", newYorkRec), ("london", londonRec), ("tokyo", tokyoRec)]

/-- The synthetic record returned for unknown locations; `now` stands
for `datetime.now().isoformat()`. -/
def fallbackRecord (location now : String) : WeatherRecord :=
  { location := location, temperature := 20, humidity := 70,
    conditions := "Unknown", wind_speed := 10, last_updated := now }

/-- Does the table key `key` match the normalized location string
(`key in location_key or location_key in key`)? -/
def keyMatches (key locationKey : String) : Bool :=
  occursIn key locationKey || occursIn locationKey key

/-- `SimpleMCPServer.get_weather_data`, over a snapshot `tbl` of
`self.weather_data`.  `now` is the timestamp the fallback branch would
generate. -/
def get_weather_data (tbl : List (String × WeatherRecord))
    (location now : String) : WeatherRecord :=
  let locationKey := normalizeLocation location
  match tbl.find? (fun kv => keyMatches kv.1 locationKey) with
  | some kv => kv.2
  | none => fallbackRecord location now

/-- The list of per-day dictionaries built by the loop in
`get_weather_forecast`: day `i` is a copy of the base record with
`temperature += (i * 2) - 2` and `date = f"2024-01-\x7b16 + i\x7d"`. -/
def forecastList (tbl : List (String × WeatherRecord))
    (location now : String) (days : Int) : List WeatherRecord :=
  let base := get_weather_data tbl location now
  (List.range days.toNat).map fun (i : Nat) =>
    { base with
      temperature := base.temperature + ((i : Int) * 2 - 2),
      date := some ("2024-01-" ++ toString (16 + i)) }

example : normalizeLocation "New York" = "new_york" := by decide
example : get_weather_data initTable "New York" "t" = newYorkRec := by decide
example : get_weather_data initTable "Atlantis" "t" = fallbackRecord "Atlantis" "t" := by decide
example : (forecastList initTable "London" "t" 3).map (·.temperature) = [16, 18, 20] := by decide
example : removeAllOcc "weather://weather://tokyo" "weather://" = "tokyo" := by decide

/-! ## JSON serialization (`json.dumps(..., indent=2)`)

The server serializes flat weather dictionaries, and one two-level
forecast payload, with `json.dumps(..., indent=2)`.  The renderers
below reproduce CPython's output for exactly those shapes (default
`ensure_ascii=True`, separators `(',', ': ')` under `indent`). -/

/-- Lowercase hexadecimal digit. -/
def hexDigit (n : Nat) : Char :=
  if n < 10 then Char.ofNat (48 + n) else Char.ofNat (87 + n)

/-- Four lowercase hexadecimal digits. -/
def hex4 (n : Nat) : String :=
  String.mk [hexDigit (n / 4096 % 16), hexDigit (n / 256 % 16),
             hexDigit (n / 16 % 16), hexDigit (n % 16)]

/-- JSON escape of one character, as CPython's `json` module emits it
with `ensure_ascii=True`: short escapes for the common controls,
`\uXXXX` (with surrogate pairs above the BMP) for other controls and
all non-ASCII characters. -/
def escapeChar (c : Char) : String :=
  if c = '"' then "\\\""
  else if c = '\\' then "\\\\"
  else if c = '\n' then "\\n"
  else if c = '\r' then "\\r"
  else if c = '\t' then "\\t"
  else if c = Char.ofNat 8 then "\\b"
  else if c = Char.ofNat 12 then "\\f"
  else if c.toNat < 32 || c.toNat > 126 then
    if c.toNat < 65536 then "\\u" ++ hex4 c.toNat
    else
      "\\u" ++ hex4 (55296 + (c.toNat - 65536) / 1024) ++
      "\\u" ++ hex4 (56320 + (c.toNat - 65536) % 1024)
  else String.singleton c

/-- JSON string literal for `s`. -/
def qstr (s : String) : String :=
  "\"" ++ String.join (s.data.map escapeChar) ++ "\""

/-- The key/rendered-value pairs of a weather dictionary, in the
insertion order the Python code establishes (the `date` key, when
present, was inserted last by the forecast loop). -/
def recordFields (r : WeatherRecord) : List (String × String) :=
  [("location", qstr r.location),
   ("temperature", toString r.temperature),
   ("humidity", toString r.humidity),
   ("conditions", qstr r.conditions),
   ("wind_speed", toString r.wind_speed),
   ("last_updated", qstr r.last_updated)] ++
  (match r.date with
   | none => []
   | some d => [("date", qstr d)])

/-- Render an object at surrounding indent `ind` with `indent=2`. -/
def renderObj (ind : String) (fields : List (String × String)) : String :=
  match fields with
  | [] => "\x7b\x7d"
  | _ =>
    "\x7b\n" ++
    String.intercalate ",\n"
      (fields.map fun kv => ind ++ "  " ++ qstr kv.1 ++ ": " ++ kv.2) ++
    "\n" ++ ind ++ "\x7d"

/-- Render an array of pre-rendered items at surrounding indent `ind`. -/
def renderArr (ind : String) (items : List String) : String :=
  match items with
  | [] => "[]"
  | _ =>
    "[\n" ++
    String.intercalate ",\n" (items.map fun it => ind ++ "  " ++ it) ++
    "\n" ++ ind ++ "]"

/-- `json.dumps(weather_data, indent=2)` for one flat record. -/
def dumpsRecord (r : WeatherRecord) : String :=
  renderObj "" (recordFields r)

/-- `json.dumps({"location": ..., "forecast_days": ..., "forecast": [...]}, indent=2)`
for the forecast response payload. -/
def dumpsForecastPayload (location : String) (days : Int)
    (fs : List WeatherRecord) : String :=
  renderObj ""
    [("location", qstr location),
     ("forecast_days", toString days),
     ("forecast", renderArr "  " (fs.map fun r => renderObj "    " (recordFields r)))]

/-! ## JSON values and the JSON-RPC envelope -/

/-- JSON values, as the handlers assemble them.  Objects are key/value
lists in insertion order. -/
inductive Json where
  | null : Json
  | bool : Bool → Json
  | str : String → Json
  | num : Int → Json
  | arr : List Json → Json
  | obj : List (String × Json) → Json

/-- Lookup in an object's key/value list. -/
def lookupKvs : List (String × Json) → String → Option Json
  | [], _ => none
  | (k, v) :: t, key => if k = key then some v else lookupKvs t key

/-- Field access on a JSON object (`none` on other values). -/
def Json.get? : Json → String → Option Json
  | .obj kvs, key => lookupKvs kvs key
  | _, _ => none

/-- `SimpleMCPServer.error_response`. -/
def error_response (request_id : Json) (code : Int) (message : String) : Json :=
  .obj [("jsonrpc", .str "2.0"), ("id", request_id),
        ("error", .obj [("code", .num code), ("message", .str message)])]

/-- Is the response an error response (does it carry an `error` member)? -/
def isErrorResp (j : Json) : Bool :=
  (j.get? "error").isSome

/-- The `error.code` member of a response, when present. -/
def errorCode (j : Json) : Option Json :=
  (j.get? "error").bind (·.get? "code")

/-! ## Requests

The handlers read a fixed set of keys out of `params` and
`params["arguments"]`, each with the default the corresponding
Python `.get` call supplies; the structures below carry exactly those
keys with exactly those defaults. -/

/-- The keys read out of `arguments` by the tool and prompt handlers,
with the `.get` defaults from the code (`days` defaults to `3`). -/
structure Arguments where
  location : String := ""
  days : Int := 3
  location1 : String := ""
  location2 : String := ""
deriving DecidableEq, Inhabited, Repr

/-- The keys read out of `params`: `params.get("uri", "")` and
`params.get("name")` (no default, i.e. `None` when absent), plus
`params.get("arguments", \x7b\x7d)`. -/
structure Params where
  uri : String := ""
  name : Option String := none
  arguments : Arguments := {}
deriving DecidableEq, Inhabited, Repr

/-- A parsed JSON-RPC request: `request.get("id")` (`Json.null` models
an absent id, matching Python's `None`), `request.get("method")`, and
`request.get("params", \x7b\x7d)`. -/
structure Request where
  id : Json := .null
  method : Option String := none
  params : Params := {}

/-- Rendering of an optional string inside an f-string: Python prints
`None` for an absent value. -/
def optShow : Option String → String
  | none => "None"
  | some s => s

/-! ## The seven handlers -/

/-- `self.capabilities`. -/
def capabilities : Json :=
  .obj [("resources", .obj []), ("tools", .obj []),
        ("prompts", .obj []), ("logging", .obj [])]

/-- `SimpleMCPServer.handle_initialize` (ignores its `params`). -/
def handle_initialize (request_id : Json) (_params : Params) : Json :=
  .obj [("jsonrpc", .str "2.0"), ("id", request_id),
        ("result", .obj
          [("protocolVersion", .str "2024-11-05"),
           ("capabilities", capabilities),
           ("serverInfo", .obj
             [("name", .str "simple-weather-mcp-server"),
              ("version", .str "1.0.0")])])]

/-- One entry of the `resources/list` result. -/
def resourceEntry (kv : String × WeatherRecord) : Json :=
  .obj [("uri", .str ("weather://" ++ kv.1)),
        ("name", .str ("Weather for " ++ kv.2.location)),
        ("description", .str ("Current weather conditions in " ++ kv.2.location)),
        ("mimeType", .str "application/json")]

/-- `SimpleMCPServer.handle_list_resources`, over a snapshot `tbl` of
`self.weather_data`. -/
def handle_list_resources (tbl : List (String × WeatherRecord))
    (request_id : Json) : Json :=
  .obj [("jsonrpc", .str "2.0"), ("id", request_id),
        ("result", .obj [("resources", .arr (tbl.map resourceEntry))])]

/-- `SimpleMCPServer.handle_read_resource`.  Note that the city key is
obtained with `uri.replace("weather://", "")`, which deletes every
occurrence of `"weather://"`, not only the leading prefix. -/
def handle_read_resource (tbl : List (String × WeatherRecord))
    (request_id : Json) (params : Params) : Json :=
  let uri := params.uri
  if startsWithL "weather://" uri = false then
    error_response request_id (-32602) ("Unknown resource URI: " ++ uri)
  else
    let city_key := removeAllOcc uri "weather://"
    match tbl.find? (fun kv => kv.1 = city_key) with
    | none => error_response request_id (-32602) ("Unknown city: " ++ city_key)
    | some kv =>
      .obj [("jsonrpc", .str "2.0"), ("id", request_id),
            ("result", .obj
              [("contents", .arr
                [.obj [("type", .str "text"),
                       ("text", .str (dumpsRecord kv.2))]])])]

/-- `SimpleMCPServer.handle_list_tools`. -/
def handle_list_tools (request_id : Json) : Json :=
  .obj [("jsonrpc", .str "2.0"), ("id", request_id),
        ("result", .obj
          [("tools", .arr
            [.obj [("name", .str "get_weather"),
                   ("description", .str "Get current weather information for a specified location"),
                   ("inputSchema", .obj
                     [("type", .str "object"),
                      ("properties", .obj
                        [("location", .obj
                          [("type", .str "string"),
                           ("description", .str "The city or location to get weather for")])]),
                      ("required", .arr [.str "location"])])],
             .obj [("name", .str "get_weather_forecast"),
                   ("description", .str "Get weather forecast for a specified location"),
                   ("inputSchema", .obj
                     [("type", .str "object"),
                      ("properties", .obj
                        [("location", .obj
                          [("type", .str "string"),
                           ("description", .str "The city or location to get forecast for")]),
                         ("days", .obj
                          [("type", .str "integer"),
                           ("description", .str "Number of days to forecast (1-7)"),
                           ("default", .num 3)])]),
                      ("required", .arr [.str "location"])])]])])]

/-- `SimpleMCPServer.get_weather` (the tool body). -/
def get_weather (tbl : List (String × WeatherRecord)) (now : String)
    (request_id : Json) (location : String) : Json :=
  .obj [("jsonrpc", .str "2.0"), ("id", request_id),
        ("result", .obj
          [("content", .arr
            [.obj [("type", .str "text"),
                   ("text", .str (dumpsRecord (get_weather_data tbl location now)))]])])]

/-- `SimpleMCPServer.get_weather_forecast` (the tool body). -/
def get_weather_forecast (tbl : List (String × WeatherRecord)) (now : String)
    (request_id : Json) (location : String) (days : Int) : Json :=
  .obj [("jsonrpc", .str "2.0"), ("id", request_id),
        ("result", .obj
          [("content", .arr
            [.obj [("type", .str "text"),
                   ("text", .str (dumpsForecastPayload location days
                     (forecastList tbl location now days)))]])])]

/-- The `try`/`except` wrapper inside `handle_call_tool`: a raised
exception `e` becomes a `-32603` error with message
`f"Tool execution failed: \x7bstr(e)\x7d"`. -/
def handle_call_tool_aux (body : Except String Json) (request_id : Json) : Json :=
  match body with
  | .ok r => r
  | .error e => error_response request_id (-32603) ("Tool execution failed: " ++ e)

/-- `SimpleMCPServer.handle_call_tool`.  The embedded tool bodies are
total, so the dispatch below always produces an `Except.ok` body. -/
def handle_call_tool (tbl : List (String × WeatherRecord)) (now : String)
    (request_id : Json) (params : Params) : Json :=
  let tool_name := params.name
  let arguments := params.arguments
  handle_call_tool_aux
    (if tool_name = some "get_weather" then
      .ok (get_weather tbl now request_id arguments.location)
    else if tool_name = some "get_weather_forecast" then
      .ok (get_weather_forecast tbl now request_id arguments.location arguments.days)
    else
      .ok (error_response request_id (-32602) ("Unknown tool: " ++ optShow tool_name)))
    request_id

/-- `SimpleMCPServer.handle_list_prompts`. -/
def handle_list_prompts (request_id : Json) : Json :=
  .obj [("jsonrpc", .str "2.0"), ("id", request_id),
        ("result", .obj
          [("prompts", .arr
            [.obj [("name", .str "weather_report"),
                   ("description", .str "Generate a weather report for a location"),
                   ("arguments", .arr
                     [.obj [("name", .str "location"),
                            ("description", .str "The location to generate a weather report for"),
                            ("required", .bool true)]])],
             .obj [("name", .str "weather_comparison"),
                   ("description", .str "Compare weather between two locations"),
                   ("arguments", .arr
                     [.obj [("name", .str "location1"),
                            ("description", .str "First location to compare"),
                            ("required", .bool true)],
                      .obj [("name", .str "location2"),
                            ("description", .str "Second location to compare"),
                            ("required", .bool true)]])]])])]

/-- The `weather_report` prompt template
(the f-string in `handle_get_prompt`). -/
def weatherReportText (location wjson : String) : String :=
  "\nPlease provide a detailed weather report for " ++ location ++
  " based on the following data:\n\n" ++ wjson ++
  "\n\nInclude:\n- Current temperature and conditions\n- Humidity and wind information\n- Any recommendations for outdoor activities\n- Comparison to seasonal averages if possible\n"

/-- The `weather_comparison` prompt template. -/
def weatherComparisonText (location1 location2 wjson1 wjson2 : String) : String :=
  "\nCompare the weather conditions between " ++ location1 ++ " and " ++ location2 ++
  ":\n\n" ++ location1 ++ " Weather:\n" ++ wjson1 ++
  "\n\n" ++ location2 ++ " Weather:\n" ++ wjson2 ++
  "\n\nPlease provide a comparison highlighting:\n- Temperature differences\n- Weather conditions\n- Which location might be better for outdoor activities\n- Any notable differences in humidity or wind\n"

/-- `SimpleMCPServer.handle_get_prompt`. -/
def handle_get_prompt (tbl : List (String × WeatherRecord)) (now : String)
    (request_id : Json) (params : Params) : Json :=
  let prompt_name := params.name
  let arguments := params.arguments
  if prompt_name = some "weather_report" then
    let location := arguments.location
    let weather_data := get_weather_data tbl location now
    let prompt_text := weatherReportText location (dumpsRecord weather_data)
    .obj [("jsonrpc", .str "2.0"), ("id", request_id),
          ("result", .obj
            [("description", .str ("Weather report for " ++ location)),
             ("messages", .arr
               [.obj [("role", .str "user"),
                      ("content", .obj
                        [("type", .str "text"),
                         ("text", .str prompt_text)])]])])]
  else if prompt_name = some "weather_comparison" then
    let location1 := arguments.location1
    let location2 := arguments.location2
    let weather1 := get_weather_data tbl location1 now
    let weather2 := get_weather_data tbl location2 now
    let prompt_text := weatherComparisonText location1 location2
      (dumpsRecord weather1) (dumpsRecord weather2)
    .obj [("jsonrpc", .str "2.0"), ("id", request_id),
          ("result", .obj
            [("description", .str ("Weather comparison between " ++ location1 ++ " and " ++ location2)),
             ("messages", .arr
               [.obj [("role", .str "user"),
                      ("content", .obj
                        [("type", .str "text"),
                         ("text", .str prompt_text)])]])])]
  else
    error_response request_id (-32602) ("Unknown prompt: " ++ optShow prompt_name)

/-! ## Top-level dispatch -/

/-- The `if`/`elif` chain in the body of `handle_request`. -/
def dispatchRequest (tbl : List (String × WeatherRecord)) (now : String)
    (req : Request) : Json :=
  if req.method = some "initialize" then handle_initialize req.id req.params
  else if req.method = some "resources/list" then handle_list_resources tbl req.id
  else if req.method = some "resources/read" then handle_read_resource tbl req.id req.params
  else if req.method = some "tools/list" then handle_list_tools req.id
  else if req.method = some "tools/call" then handle_call_tool tbl now req.id req.params
  else if req.method = some "prompts/list" then handle_list_prompts req.id
  else if req.method = some "prompts/get" then handle_get_prompt tbl now req.id req.params
  else error_response req.id (-32601) ("Method not found: " ++ optShow req.method)

/-- The `try`/`except` wrapper of `handle_request`: a raised exception
`e` becomes a `-32603` error whose message is `str(e)`. -/
def handle_request_aux (body : Except String Json) (request_id : Json) : Json :=
  match body with
  | .ok r => r
  | .error e => error_response request_id (-32603) e

/-- `SimpleMCPServer.handle_request`.  The embedded handlers are
total, so the body is always an `Except.ok`. -/
def handle_request (tbl : List (String × WeatherRecord)) (now : String)
    (req : Request) : Json :=
  handle_request_aux (.ok (dispatchRequest tbl now req)) req.id

/-! ## Heap model of the weather dictionaries

Python dictionaries are objects on a heap; `self.weather_data` holds
references to the three seed dictionaries, created in `__init__` and
never rebound.  To check that no request mutates them, the
dictionaries a request touches are modelled explicitly: a `Heap` is a
list of weather records, cells `0`, `1`, `2` are the seeds, an
allocation (a dict literal or `.copy()`) appends a cell, and an item
assignment (`d[k] = v` / `d[k] += v`) is `List.set` at the cell the
Python code holds a reference to.  The forecast loop performs its two
item assignments on the cell freshly allocated by
`base_weather.copy()`; that is the whole content of the claim that the
seed table is never mutated. -/

/-- The heap of weather dictionaries. -/
abbrev Heap := List WeatherRecord

/-- The heap as `__init__` leaves it: the three seed dictionaries. -/
def initHeap : Heap := [newYorkRec, londonRec, tokyoRec]

/-- The value snapshot of `self.weather_data`: keys in insertion
order, each dereferencing its fixed heap cell. -/
def seedTable (h : Heap) : List (String × WeatherRecord) :=
  [("new_york", h.getD 0 default), ("london", h.getD 1 default),
   ("tokyo", h.getD 2 default)]

/-- Heap effect of `get_weather_data`: a hit returns the seed
dictionary itself (no allocation), a miss allocates the fallback dict
literal. -/
def lookupAlloc (h : Heap) (location now : String) : Heap :=
  match (seedTable h).find? (fun kv => keyMatches kv.1 (normalizeLocation location)) with
  | some _ => h
  | none => h ++ [fallbackRecord location now]

/-- Heap effect of one iteration of the forecast loop:
`day_weather = base_weather.copy()` allocates a cell holding the base
value, then `day_weather["temperature"] += (i * 2) - 2` and
`day_weather["date"] = ...` are two item assignments on that fresh
cell. -/
def forecastDayEffect (base : WeatherRecord) (h : Heap) (i : Nat) : Heap :=
  let h1 := h ++ [base]
  let r := h.length
  let v1 := h1.getD r default
  let h2 := h1.set r { v1 with temperature := v1.temperature + ((i : Int) * 2 - 2) }
  let v2 := h2.getD r default
  h2.set r { v2 with date := some ("2024-01-" ++ toString (16 + i)) }

/-- Heap effect of the whole forecast loop (`for i in range(days)`). -/
def forecastEffect (base : WeatherRecord) (days : Int) (h : Heap) : Heap :=
  (List.range days.toNat).foldl (forecastDayEffect base) h

/-- Heap effect of one request.  Handlers other than the two tools and
the two prompts only read the heap (or touch no weather dictionary at
all); the tool and prompt bodies perform the allocations listed. -/
def requestEffect (h : Heap) (req : Request) (now : String) : Heap :=
  if req.method = some "tools/call" then
    if req.params.name = some "get_weather" then
      lookupAlloc h req.params.arguments.location now
    else if req.params.name = some "get_weather_forecast" then
      forecastEffect (get_weather_data (seedTable h) req.params.arguments.location now)
        req.params.arguments.days
        (lookupAlloc h req.params.arguments.location now)
    else h
  else if req.method = some "prompts/get" then
    if req.params.name = some "weather_report" then
      lookupAlloc h req.params.arguments.location now
    else if req.params.name = some "weather_comparison" then
      lookupAlloc (lookupAlloc h req.params.arguments.location1 now)
        req.params.arguments.location2 now
    else h
  else h

/-- Run a sequence of requests (each with the wall-clock instant at
which it was served) for their heap effects. -/
def runEffects (h : Heap) : List (Request × String) → Heap
  | [] => h
  | (r, now) :: rest => runEffects (requestEffect h r now) rest

/-- The seed cells are intact: the first three heap cells still hold
the records `__init__` created. -/
def seedsIntact (h : Heap) : Prop :=
  h.take 3 = initHeap

/-! ## Heap invariant lemmas -/

theorem take_set_of_le {α : Type} (l : List α) (n i : Nat) (v : α)
    (hni : n ≤ i) : (l.set i v).take n = l.take n := by
  induction l generalizing n i with
  | nil => simp
  | cons a t ih =>
    cases i with
    | zero =>
      have : n = 0 := Nat.le_zero.mp hni
      simp [this]
    | succ j =>
      cases n with
      | zero => simp
      | succ m => simp [List.set, List.take, ih m j (Nat.le_of_succ_le_succ hni)]

theorem take_append_left {α : Type} (l l2 : List α) (n : Nat)
    (hn : n ≤ l.length) : (l ++ l2).take n = l.take n := by
  induction l generalizing n with
  | nil =>
    have : n = 0 := Nat.le_zero.mp (by simpa using hn)
    simp [this]
  | cons a t ih =>
    cases n with
    | zero => simp
    | succ m => simp [List.take, ih m (Nat.le_of_succ_le_succ (by simpa using hn))]

theorem seedsIntact_length {h : Heap} (hs : seedsIntact h) : 3 ≤ h.length := by
  have hlen := congrArg List.length hs
  simp [initHeap] at hlen
  omega

theorem seedsIntact_initHeap : seedsIntact initHeap := rfl

theorem lookupAlloc_intact {h : Heap} (loc now : String) (hs : seedsIntact h) :
    seedsIntact (lookupAlloc h loc now) := by
  unfold lookupAlloc
  cases hfind : (seedTable h).find? (fun kv => keyMatches kv.1 (normalizeLocation loc)) with
  | some kv => exact hs
  | none =>
    unfold seedsIntact at hs ⊢
    rw [take_append_left _ _ _ (seedsIntact_length hs)]
    exact hs

theorem forecastDayEffect_intact (base : WeatherRecord) {h : Heap} (i : Nat)
    (hs : seedsIntact h) : seedsIntact (forecastDayEffect base h i) := by
  have h3 := seedsIntact_length hs
  unfold seedsIntact at hs ⊢
  simp only [forecastDayEffect]
  rw [take_set_of_le _ _ _ _ h3, take_set_of_le _ _ _ _ h3,
      take_append_left _ _ _ h3]
  exact hs

theorem forecastFold_intact (base : WeatherRecord) (l : List Nat) {h : Heap}
    (hs : seedsIntact h) : seedsIntact (l.foldl (forecastDayEffect base) h) := by
  induction l generalizing h with
  | nil => exact hs
  | cons a t ih => exact ih (forecastDayEffect_intact base a hs)

theorem forecastEffect_intact (base : WeatherRecord) (days : Int) {h : Heap}
    (hs : seedsIntact h) : seedsIntact (forecastEffect base days h) :=
  forecastFold_intact base _ hs

theorem requestEffect_intact {h : Heap} (req : Request) (now : String)
    (hs : seedsIntact h) : seedsIntact (requestEffect h req now) := by
  unfold requestEffect
  split
  · split
    · exact lookupAlloc_intact _ _ hs
    · split
      · exact forecastEffect_intact _ _ (lookupAlloc_intact _ _ hs)
      · exact hs
  · split
    · split
      · exact lookupAlloc_intact _ _ hs
      · split
        · exact lookupAlloc_intact _ _ (lookupAlloc_intact _ _ hs)
        · exact hs
    · exact hs

theorem runEffects_intact (l : List (Request × String)) {h : Heap}
    (hs : seedsIntact h) : seedsIntact (runEffects h l) := by
  induction l generalizing h with
  | nil => exact hs
  | cons p t ih => exact ih (requestEffect_intact p.1 p.2 hs)

theorem seedTable_of_intact {h : Heap} (hs : seedsIntact h) :
    seedTable h = initTable := by
  unfold seedsIntact at hs
  rcases h with _ | ⟨a, _ | ⟨b, _ | ⟨c, t⟩⟩⟩ <;>
    simp [initHeap, List.take] at hs
  obtain ⟨h1, h2, h3⟩ := hs
  subst h1; subst h2; subst h3
  rfl

/-! ## Spec-side definitions

These definitions follow the words of the specification (not the
code); the claim theorems compare them with the embedded code. -/

/-- The weather lookup as the spec words it: normalize the location,
then try the three seeded keys in the static table's iteration order
(`new_york`, `london`, `tokyo`), taking the first key that is a
substring of the normalized string or of which the normalized string
is a substring; otherwise the synthetic record. -/
def specWeatherLookup (location now : String) : WeatherRecord :=
  let n := normalizeLocation location
  if keyMatches "new_york" n then newYorkRec
  else if keyMatches "london" n then londonRec
  else if keyMatches "tokyo" n then tokyoRec
  else
    { location := location, temperature := 20, humidity := 70,
      conditions := "Unknown", wind_speed := 10, last_updated := now }

/-- The "remaining city key" of a `weather://` URI as the claim reads
it: the suffix left after the leading marker. -/
def uriSuffixAfterMarker (uri : String) : String :=
  String.mk (uri.data.drop ("weather://".data.length))

/-- The entries of a `resources/list` response. -/
def resourcesOf (j : Json) : List Json :=
  match (j.get? "result").bind (·.get? "resources") with
  | some (.arr l) => l
  | _ => []

/-! ## Claim theorems -/

/-- C1: `get_weather_data` normalizes the location (lowercase, strip
spaces as underscores, strip commas) and returns the first seeded
record, in table iteration order `new_york`, `london`, `tokyo`, whose
key is a substring of the normalized string or of which the normalized
string is a substring; `"New York"` yields the New York seed
(temperature 72, conditions "Partly cloudy"), and with no match a
synthetic record with temperature 20, humidity 70, conditions
"Unknown", wind speed 10 and the freshly generated timestamp. -/
theorem weather_lookup_matches_spec :
    (∀ location now, get_weather_data initTable location now = specWeatherLookup location now)
    ∧ (∀ now, get_weather_data initTable "New York" now = newYorkRec)
    ∧ newYorkRec.temperature = 72 ∧ newYorkRec.conditions = "Partly cloudy"
    ∧ (∀ now, get_weather_data initTable "Atlantis" now =
        { location := "Atlantis", temperature := 20, humidity := 70,
          conditions := "Unknown", wind_speed := 10, last_updated := now,
          date := none }) := by
  refine ⟨?_, fun _ => rfl, rfl, rfl, fun _ => rfl⟩
  intro location now
  unfold get_weather_data specWeatherLookup initTable
  cases h1 : keyMatches "new_york" (normalizeLocation location) <;>
  cases h2 : keyMatches "london" (normalizeLocation location) <;>
  cases h3 : keyMatches "tokyo" (normalizeLocation location) <;>
    simp [List.find?, h1, h2, h3, fallbackRecord]

/-- C2 counterexample: the claim promises "exactly n daily records"
for every day count `n`, but at `days = -1` the loop (`range(-1)` is
empty) produces 0 records, and 0 ≠ -1. -/
theorem forecast_negative_days_cex :
    (forecastList initTable "London" "t" (-1)).length = 0
    ∧ ((0 : Int) ≠ (-1 : Int)) :=
  ⟨by decide, by decide⟩

/-- C2 (amended): `get_weather_forecast` produces `max n 0` daily
records (negative day counts yield an empty forecast; otherwise no
bounds check, so any large count passes through); the record at
zero-based index `i` has temperature `base + (i * 2) - 2` and date
string `"2024-01-"` followed by `16 + i`; for London (base 18) and
`days = 3` the temperatures are `[16, 18, 20]`. -/
theorem forecast_records :
    (∀ location now (days : Int),
        (forecastList initTable location now days).length = days.toNat)
    ∧ (∀ location now (days : Int) (i : Nat), i < days.toNat →
        (forecastList initTable location now days).getD i default =
          { get_weather_data initTable location now with
            temperature :=
              (get_weather_data initTable location now).temperature + ((i : Int) * 2 - 2),
            date := some ("2024-01-" ++ toString (16 + i)) })
    ∧ londonRec.temperature = 18
    ∧ (forecastList initTable "London" "t" 3).map (·.temperature) = [16, 18, 20] := by
  refine ⟨?_, ?_, rfl, by decide⟩
  · intro location now days
    simp only [forecastList, List.length_map, List.length_range]
  · intro location now days i hi
    simp only [forecastList, List.getD_eq_getElem?_getD, List.getElem?_map,
      List.getElem?_range hi]
    rfl

/-- C2 witness: the amended per-index statement, instantiated at
London, `days = 3`, `i = 1`. -/
theorem forecast_records_witness :
    (1 : Nat) < (3 : Int).toNat ∧
    (forecastList initTable "London" "t" 3).getD 1 default =
      { get_weather_data initTable "London" "t" with
        temperature :=
          (get_weather_data initTable "London" "t").temperature + (((1 : Nat) : Int) * 2 - 2),
        date := some ("2024-01-" ++ toString (16 + (1 : Nat))) } :=
  ⟨by decide, forecast_records.2.1 "London" "t" 3 1 (by decide)⟩

/-- C3 counterexample: the claim reads the city key as what remains
after the `weather://` prefix, but the code computes it with
`uri.replace("weather://", "")`, deleting every occurrence.  For the
URI `weather://weather://tokyo` the remainder after the prefix,
`weather://tokyo`, is not a seeded key, so the claim demands a -32602
error; the code deletes both occurrences, looks up `tokyo`, and
succeeds. -/
theorem read_resource_replace_all_cex :
    startsWithL "weather://" "weather://weather://tokyo" = true
    ∧ uriSuffixAfterMarker "weather://weather://tokyo" = "weather://tokyo"
    ∧ ("weather://tokyo" ∉ (["new_york", "london", "tokyo"] : List String))
    ∧ isErrorResp
        (handle_read_resource initTable .null { uri := "weather://weather://tokyo" }) = false :=
  ⟨by decide, by decide, by decide, by decide⟩

theorem find_key_initTable_isSome (k : String) :
    (initTable.find? (fun kv => kv.1 = k)).isSome = true ↔
      k ∈ (["new_york", "london", "tokyo"] : List String) := by
  by_cases h1 : k = "new_york"
  · subst h1; decide
  · by_cases h2 : k = "london"
    · subst h2; decide
    · by_cases h3 : k = "tokyo"
      · subst h3; decide
      · simp [initTable, List.find?, h1, h2, h3, Ne.symm h1, Ne.symm h2, Ne.symm h3]

theorem isErrorResp_error_response (request_id : Json) (c : Int) (m : String) :
    isErrorResp (error_response request_id c m) = true := rfl

theorem errorCode_error_response (request_id : Json) (c : Int) (m : String) :
    errorCode (error_response request_id c m) = some (.num c) := rfl

theorem read_resource_eq_of_bad_uri {tbl : List (String × WeatherRecord)}
    {request_id : Json} {p : Params}
    (hb : startsWithL "weather://" p.uri = false) :
    handle_read_resource tbl request_id p =
      error_response request_id (-32602) ("Unknown resource URI: " ++ p.uri) := by
  simp [handle_read_resource, hb]

theorem read_resource_eq_of_unknown_city {tbl : List (String × WeatherRecord)}
    {request_id : Json} {p : Params}
    (hb : startsWithL "weather://" p.uri = true)
    (hf : tbl.find? (fun kv => kv.1 = removeAllOcc p.uri "weather://") = none) :
    handle_read_resource tbl request_id p =
      error_response request_id (-32602)
        ("Unknown city: " ++ removeAllOcc p.uri "weather://") := by
  simp [handle_read_resource, hb, hf]

theorem read_resource_eq_of_found {tbl : List (String × WeatherRecord)}
    {request_id : Json} {p : Params} {kv : String × WeatherRecord}
    (hb : startsWithL "weather://" p.uri = true)
    (hf : tbl.find? (fun kv' => kv'.1 = removeAllOcc p.uri "weather://") = some kv) :
    handle_read_resource tbl request_id p =
      .obj [("jsonrpc", .str "2.0"), ("id", request_id),
            ("result", .obj
              [("contents", .arr
                [.obj [("type", .str "text"),
                       ("text", .str (dumpsRecord kv.2))]])])] := by
  simp [handle_read_resource, hb, hf]

/-- C3 (amended): a `resources/read` response is an error, with code
-32602, if and only if the URI does not start with `weather://` or the
string obtained by deleting every occurrence of `weather://` from the
URI (not merely the leading prefix) is not one of the three seeded
keys; otherwise the result carries the matching seed record's JSON as
text content.  Reading `weather://tokyo` yields the record with
location `"Tokyo, Japan"`; reading `weather://atlantis` yields a
-32602 error. -/
theorem read_resource_errors :
    (∀ (request_id : Json) (p : Params),
        isErrorResp (handle_read_resource initTable request_id p) = true ↔
          (startsWithL "weather://" p.uri = false ∨
           removeAllOcc p.uri "weather://" ∉ (["new_york", "london", "tokyo"] : List String)))
    ∧ (∀ (request_id : Json) (p : Params),
        isErrorResp (handle_read_resource initTable request_id p) = true →
          errorCode (handle_read_resource initTable request_id p) = some (.num (-32602)))
    ∧ (∀ (request_id : Json) (p : Params) (kv : String × WeatherRecord),
        startsWithL "weather://" p.uri = true →
        initTable.find? (fun kv' => kv'.1 = removeAllOcc p.uri "weather://") = some kv →
          handle_read_resource initTable request_id p =
            .obj [("jsonrpc", .str "2.0"), ("id", request_id),
                  ("result", .obj
                    [("contents", .arr
                      [.obj [("type", .str "text"),
                             ("text", .str (dumpsRecord kv.2))]])])])
    ∧ (∀ (request_id : Json),
        handle_read_resource initTable request_id { uri := "weather://tokyo" } =
          .obj [("jsonrpc", .str "2.0"), ("id", request_id),
                ("result", .obj
                  [("contents", .arr
                    [.obj [("type", .str "text"),
                           ("text", .str (dumpsRecord tokyoRec))]])])])
    ∧ tokyoRec.location = "Tokyo, Japan"
    ∧ (∀ (request_id : Json),
        handle_read_resource initTable request_id { uri := "weather://atlantis" } =
          error_response request_id (-32602) "Unknown city: atlantis") := by
  refine ⟨?_, ?_, ?_, fun _ => rfl, rfl, fun _ => rfl⟩
  · intro request_id p
    cases hb : startsWithL "weather://" p.uri with
    | false =>
      rw [read_resource_eq_of_bad_uri hb]
      simp [isErrorResp_error_response, hb]
    | true =>
      cases hf : initTable.find? (fun kv => kv.1 = removeAllOcc p.uri "weather://") with
      | none =>
        have hni : removeAllOcc p.uri "weather://" ∉
            (["new_york", "london", "tokyo"] : List String) := by
          intro hm
          have hsome := (find_key_initTable_isSome (removeAllOcc p.uri "weather://")).mpr hm
          rw [hf] at hsome
          simp at hsome
        rw [read_resource_eq_of_unknown_city hb hf]
        simp [isErrorResp_error_response, hb, hni]
      | some kv =>
        have hmm : removeAllOcc p.uri "weather://" ∈
            (["new_york", "london", "tokyo"] : List String) :=
          (find_key_initTable_isSome (removeAllOcc p.uri "weather://")).mp (by rw [hf]; rfl)
        rw [read_resource_eq_of_found hb hf]
        simp [isErrorResp, Json.get?, lookupKvs, hb, hmm]
  · intro request_id p
    cases hb : startsWithL "weather://" p.uri with
    | false =>
      intro _
      rw [read_resource_eq_of_bad_uri hb]
      exact errorCode_error_response request_id (-32602) ("Unknown resource URI: " ++ p.uri)
    | true =>
      cases hf : initTable.find? (fun kv => kv.1 = removeAllOcc p.uri "weather://") with
      | none =>
        intro _
        rw [read_resource_eq_of_unknown_city hb hf]
        exact errorCode_error_response request_id (-32602)
          ("Unknown city: " ++ removeAllOcc p.uri "weather://")
      | some kv =>
        intro hcontr
        rw [read_resource_eq_of_found hb hf] at hcontr
        simp [isErrorResp, Json.get?, lookupKvs] at hcontr
  · intro request_id p kv hb hf
    exact read_resource_eq_of_found hb hf

/-- C3 witness: the amended error characterization, instantiated at
the unknown city `weather://atlantis`, and the success branch at
`weather://tokyo`. -/
theorem read_resource_errors_witness :
    (isErrorResp (handle_read_resource initTable .null { uri := "weather://atlantis" }) = true ↔
      (startsWithL "weather://" "weather://atlantis" = false ∨
       removeAllOcc "weather://atlantis" "weather://" ∉ (["new_york", "london", "tokyo"] : List String)))
    ∧ errorCode (handle_read_resource initTable .null { uri := "weather://atlantis" }) =
        some (.num (-32602))
    ∧ handle_read_resource initTable .null { uri := "weather://tokyo" } =
        .obj [("jsonrpc", .str "2.0"), ("id", .null),
              ("result", .obj
                [("contents", .arr
                  [.obj [("type", .str "text"),
                         ("text", .str (dumpsRecord tokyoRec))]])])] :=
  ⟨read_resource_errors.1 .null { uri := "weather://atlantis" },
   read_resource_errors.2.1 .null { uri := "weather://atlantis" } (by decide),
   read_resource_errors.2.2.1 .null { uri := "weather://tokyo" } ("tokyo", tokyoRec)
     (by decide) (by decide)⟩

/-- C4: `handle_request` routes each of the seven method names to its
handler; any other method name yields a -32601 error whose message
names the method; and the `except` wrapper turns a raised exception
into a -32603 error whose message is the exception's message. -/
theorem dispatch_routing :
    (∀ tbl now (request_id : Json) (p : Params),
        handle_request tbl now { id := request_id, method := some "initialize", params := p } =
          handle_initialize request_id p)
    ∧ (∀ tbl now (request_id : Json) (p : Params),
        handle_request tbl now { id := request_id, method := some "resources/list", params := p } =
          handle_list_resources tbl request_id)
    ∧ (∀ tbl now (request_id : Json) (p : Params),
        handle_request tbl now { id := request_id, method := some "resources/read", params := p } =
          handle_read_resource tbl request_id p)
    ∧ (∀ tbl now (request_id : Json) (p : Params),
        handle_request tbl now { id := request_id, method := some "tools/list", params := p } =
          handle_list_tools request_id)
    ∧ (∀ tbl now (request_id : Json) (p : Params),
        handle_request tbl now { id := request_id, method := some "tools/call", params := p } =
          handle_call_tool tbl now request_id p)
    ∧ (∀ tbl now (request_id : Json) (p : Params),
        handle_request tbl now { id := request_id, method := some "prompts/list", params := p } =
          handle_list_prompts request_id)
    ∧ (∀ tbl now (request_id : Json) (p : Params),
        handle_request tbl now { id := request_id, method := some "prompts/get", params := p } =
          handle_get_prompt tbl now request_id p)
    ∧ (∀ tbl now (request_id : Json) (p : Params) (m : String),
        m ∉ (["initialize", "resources/list", "resources/read", "tools/list",
              "tools/call", "prompts/list", "prompts/get"] : List String) →
        handle_request tbl now { id := request_id, method := some m, params := p } =
          error_response request_id (-32601) ("Method not found: " ++ m))
    ∧ (∀ (request_id : Json) (e : String),
        handle_request_aux (.error e) request_id =
          error_response request_id (-32603) e) := by
  refine ⟨fun _ _ _ _ => rfl, fun _ _ _ _ => rfl, fun _ _ _ _ => rfl, fun _ _ _ _ => rfl,
    fun _ _ _ _ => rfl, fun _ _ _ _ => rfl, fun _ _ _ _ => rfl, ?_, fun _ _ => rfl⟩
  intro tbl now request_id p m hm
  simp only [List.mem_cons, List.mem_singleton] at hm
  push_neg at hm
  obtain ⟨h1, h2, h3, h4, h5, h6, h7, _⟩ := hm
  simp [handle_request, handle_request_aux, dispatchRequest, optShow,
    h1, h2, h3, h4, h5, h6, h7]

/-- C4 witness: an unrecognized method name produces the -32601
error. -/
theorem dispatch_routing_witness :
    ("bogus/method" ∉ (["initialize", "resources/list", "resources/read", "tools/list",
        "tools/call", "prompts/list", "prompts/get"] : List String))
    ∧ handle_request initTable "t" { id := .null, method := some "bogus/method", params := {} } =
        error_response .null (-32601) "Method not found: bogus/method" :=
  ⟨by decide,
   dispatch_routing.2.2.2.2.2.2.2.1 initTable "t" .null {} "bogus/method" (by decide)⟩

/-- C5: a `tools/call` whose tool name is neither `get_weather` nor
`get_weather_forecast` yields a -32602 error (while the tool wrapper
turns an internal execution failure into -32603), and a `prompts/get`
whose prompt name is neither `weather_report` nor `weather_comparison`
yields a -32602 error. -/
theorem unknown_tool_and_prompt :
    (∀ tbl now (request_id : Json) (p : Params),
        p.name ≠ some "get_weather" → p.name ≠ some "get_weather_forecast" →
        handle_call_tool tbl now request_id p =
          error_response request_id (-32602) ("Unknown tool: " ++ optShow p.name))
    ∧ (∀ (request_id : Json) (e : String),
        handle_call_tool_aux (.error e) request_id =
          error_response request_id (-32603) ("Tool execution failed: " ++ e))
    ∧ (∀ tbl now (request_id : Json) (p : Params),
        p.name ≠ some "weather_report" → p.name ≠ some "weather_comparison" →
        handle_get_prompt tbl now request_id p =
          error_response request_id (-32602) ("Unknown prompt: " ++ optShow p.name)) := by
  refine ⟨?_, fun _ _ => rfl, ?_⟩
  · intro tbl now request_id p h1 h2
    simp [handle_call_tool, handle_call_tool_aux, h1, h2]
  · intro tbl now request_id p h1 h2
    simp [handle_get_prompt, h1, h2]

/-- C5 witness: concrete unknown tool and prompt names. -/
theorem unknown_tool_and_prompt_witness :
    (some "bogus_tool" ≠ some "get_weather")
    ∧ (some "bogus_tool" ≠ some "get_weather_forecast")
    ∧ handle_call_tool initTable "t" .null { name := some "bogus_tool" } =
        error_response .null (-32602) "Unknown tool: bogus_tool"
    ∧ handle_get_prompt initTable "t" .null { name := some "bogus_prompt" } =
        error_response .null (-32602) "Unknown prompt: bogus_prompt" :=
  ⟨by decide, by decide,
   unknown_tool_and_prompt.1 initTable "t" .null { name := some "bogus_tool" }
     (by decide) (by decide),
   unknown_tool_and_prompt.2.2 initTable "t" .null { name := some "bogus_prompt" }
     (by decide) (by decide)⟩

/-- C6: after any sequence of preceding requests, `resources/list`
returns exactly 3 entries, each carrying `uri`, `name`, `description`
and `mimeType` members, whose uris are exactly `weather://new_york`,
`weather://london` and `weather://tokyo`. -/
theorem list_resources_always_three :
    ∀ (reqs : List (Request × String)) (request_id : Json),
      (resourcesOf (handle_list_resources (seedTable (runEffects initHeap reqs)) request_id)).length = 3
      ∧ (resourcesOf (handle_list_resources (seedTable (runEffects initHeap reqs)) request_id)).map
          (fun r => r.get? "uri") =
          [some (.str "weather://new_york"), some (.str "weather://london"),
           some (.str "weather://tokyo")]
      ∧ (resourcesOf (handle_list_resources (seedTable (runEffects initHeap reqs)) request_id)).all
          (fun r => (r.get? "uri").isSome && (r.get? "name").isSome &&
            (r.get? "description").isSome && (r.get? "mimeType").isSome) = true := by
  intro reqs request_id
  rw [seedTable_of_intact (runEffects_intact reqs seedsIntact_initHeap)]
  exact ⟨rfl, rfl, rfl⟩

/-- C7: for every city key of the seed table, the `resources/list`
entry built for it has uri `weather://` ++ key, and `resources/read`
on that uri succeeds (no error member in the response). -/
theorem resource_uri_roundtrip :
    ∀ kv : String × WeatherRecord, kv ∈ initTable → ∀ (request_id : Json),
      (resourceEntry kv).get? "uri" = some (.str ("weather://" ++ kv.1))
      ∧ isErrorResp (handle_read_resource initTable request_id { uri := "weather://" ++ kv.1 }) = false := by
  intro kv hkv request_id
  simp only [initTable, List.mem_cons, List.not_mem_nil, or_false] at hkv
  rcases hkv with h | h | h <;> subst h <;> exact ⟨rfl, rfl⟩

/-- C7 witness: the round trip at the key `new_york`. -/
theorem resource_uri_roundtrip_witness :
    (("new_york", newYorkRec) ∈ initTable)
    ∧ (resourceEntry ("new_york", newYorkRec)).get? "uri" =
        some (.str ("weather://" ++ "new_york"))
    ∧ isErrorResp (handle_read_resource initTable .null { uri := "weather://" ++ "new_york" }) = false :=
  ⟨by decide,
   (resource_uri_roundtrip ("new_york", newYorkRec) (by decide) .null).1,
   (resource_uri_roundtrip ("new_york", newYorkRec) (by decide) .null).2⟩

/-- C8: `prompts/get` with prompt `weather_report` and location
`"Paris"` returns a description containing "Paris" and a single user
message whose body is the report template with "Paris" and the JSON of
the synthesized generic record (Paris matches no seed key)
substituted in. -/
theorem prompt_report_paris :
    ∀ (request_id : Json) (now : String),
      ((handle_get_prompt initTable now request_id
          { name := some "weather_report", arguments := { location := "Paris" } }).get? "result").bind
        (·.get? "description") = some (.str "Weather report for Paris")
      ∧ occursIn "Paris" "Weather report for Paris" = true
      ∧ ((handle_get_prompt initTable now request_id
          { name := some "weather_report", arguments := { location := "Paris" } }).get? "result").bind
        (·.get? "messages") =
          some (.arr
            [.obj [("role", .str "user"),
                   ("content", .obj
                     [("type", .str "text"),
                      ("text", .str (weatherReportText "Paris" (dumpsRecord
                        { location := "Paris", temperature := 20, humidity := 70,
                          conditions := "Unknown", wind_speed := 10,
                          last_updated := now, date := none })))])]]) := by
  intro request_id now
  exact ⟨rfl, by decide, rfl⟩

/-- C9: no request mutates the seed weather table: after any sequence
of requests (forecast calls copy each base record before adjusting
it), the three seed heap cells hold their original records, the value
of `self.weather_data` is unchanged, and every lookup returns the same
record it returned initially. -/
theorem seed_table_never_mutated :
    ∀ (reqs : List (Request × String)),
      seedsIntact (runEffects initHeap reqs)
      ∧ seedTable (runEffects initHeap reqs) = seedTable initHeap
      ∧ ∀ (location now : String),
          get_weather_data (seedTable (runEffects initHeap reqs)) location now =
            get_weather_data (seedTable initHeap) location now := by
  intro reqs
  have hs := runEffects_intact reqs seedsIntact_initHeap
  refine ⟨hs, ?_, ?_⟩
  · rw [seedTable_of_intact hs]; rfl
  · intro location now
    rw [seedTable_of_intact hs]
    rfl

theorem envelope_read_resource (tbl : List (String × WeatherRecord))
    (request_id : Json) (p : Params) :
    (handle_read_resource tbl request_id p).get? "jsonrpc" = some (.str "2.0")
    ∧ (handle_read_resource tbl request_id p).get? "id" = some request_id := by
  cases hb : startsWithL "weather://" p.uri with
  | false => rw [read_resource_eq_of_bad_uri hb]; exact ⟨rfl, rfl⟩
  | true =>
    cases hf : tbl.find? (fun kv => kv.1 = removeAllOcc p.uri "weather://") with
    | none => rw [read_resource_eq_of_unknown_city hb hf]; exact ⟨rfl, rfl⟩
    | some kv => rw [read_resource_eq_of_found hb hf]; exact ⟨rfl, rfl⟩

theorem envelope_call_tool (tbl : List (String × WeatherRecord)) (now : String)
    (request_id : Json) (p : Params) :
    (handle_call_tool tbl now request_id p).get? "jsonrpc" = some (.str "2.0")
    ∧ (handle_call_tool tbl now request_id p).get? "id" = some request_id := by
  by_cases h1 : p.name = some "get_weather"
  · have hq : handle_call_tool tbl now request_id p =
        get_weather tbl now request_id p.arguments.location := by
      simp [handle_call_tool, handle_call_tool_aux, h1]
    rw [hq]; exact ⟨rfl, rfl⟩
  · by_cases h2 : p.name = some "get_weather_forecast"
    · have hq : handle_call_tool tbl now request_id p =
          get_weather_forecast tbl now request_id p.arguments.location p.arguments.days := by
        simp [handle_call_tool, handle_call_tool_aux, h1, h2]
      rw [hq]; exact ⟨rfl, rfl⟩
    · have hq : handle_call_tool tbl now request_id p =
          error_response request_id (-32602) ("Unknown tool: " ++ optShow p.name) := by
        simp [handle_call_tool, handle_call_tool_aux, h1, h2]
      rw [hq]; exact ⟨rfl, rfl⟩

theorem envelope_get_prompt (tbl : List (String × WeatherRecord)) (now : String)
    (request_id : Json) (p : Params) :
    (handle_get_prompt tbl now request_id p).get? "jsonrpc" = some (.str "2.0")
    ∧ (handle_get_prompt tbl now request_id p).get? "id" = some request_id := by
  by_cases h1 : p.name = some "weather_report"
  · have hq : handle_get_prompt tbl now request_id p =
        .obj [("jsonrpc", .str "2.0"), ("id", request_id),
              ("result", .obj
                [("description", .str ("Weather report for " ++ p.arguments.location)),
                 ("messages", .arr
                   [.obj [("role", .str "user"),
                          ("content", .obj
                            [("type", .str "text"),
                             ("text", .str (weatherReportText p.arguments.location
                               (dumpsRecord (get_weather_data tbl p.arguments.location now))))])]])])] := by
      simp [handle_get_prompt, h1]
    rw [hq]; exact ⟨rfl, rfl⟩
  · by_cases h2 : p.name = some "weather_comparison"
    · have hq : handle_get_prompt tbl now request_id p =
          .obj [("jsonrpc", .str "2.0"), ("id", request_id),
                ("result", .obj
                  [("description", .str ("Weather comparison between " ++
                      p.arguments.location1 ++ " and " ++ p.arguments.location2)),
                   ("messages", .arr
                     [.obj [("role", .str "user"),
                            ("content", .obj
                              [("type", .str "text"),
                               ("text", .str (weatherComparisonText
                                 p.arguments.location1 p.arguments.location2
                                 (dumpsRecord (get_weather_data tbl p.arguments.location1 now))
                                 (dumpsRecord (get_weather_data tbl p.arguments.location2 now))))])]])])] := by
        simp [handle_get_prompt, h1, h2]
      rw [hq]; exact ⟨rfl, rfl⟩
    · have hq : handle_get_prompt tbl now request_id p =
          error_response request_id (-32602) ("Unknown prompt: " ++ optShow p.name) := by
        simp [handle_get_prompt, h1, h2]
      rw [hq]; exact ⟨rfl, rfl⟩

/-- C10: every response of `handle_request` — success, a -32601 or
-32602 error, or the -32603 exception path — carries `jsonrpc = "2.0"` and
echoes the request's id (an absent id, modelled `Json.null`, is echoed
as null). -/
theorem response_envelope :
    (∀ tbl now (req : Request),
        (handle_request tbl now req).get? "jsonrpc" = some (.str "2.0")
        ∧ (handle_request tbl now req).get? "id" = some req.id)
    ∧ (∀ (request_id : Json) (e : String),
        (handle_request_aux (.error e) request_id).get? "jsonrpc" = some (.str "2.0")
        ∧ (handle_request_aux (.error e) request_id).get? "id" = some request_id) := by
  refine ⟨?_, fun _ _ => ⟨rfl, rfl⟩⟩
  intro tbl now req
  have hdef : handle_request tbl now req = dispatchRequest tbl now req := rfl
  rw [hdef]
  unfold dispatchRequest
  split_ifs
  · exact ⟨rfl, rfl⟩
  · exact ⟨rfl, rfl⟩
  · exact envelope_read_resource tbl req.id req.params
  · exact ⟨rfl, rfl⟩
  · exact envelope_call_tool tbl now req.id req.params
  · exact ⟨rfl, rfl⟩
  · exact envelope_get_prompt tbl now req.id req.params
  · exact ⟨rfl, rfl⟩

end WeatherServer
